import Mathlib

/-!
A shallow embedding of `src/tools/integrate_codes.py`, a bundler that
concatenates Rust source files into one output file `integrated.rs`.

The script:
* collects `paths = [p for p in glob.glob("src/**", recursive=True) if os.path.isfile(p)]`
  and appends `args.main_path` (an `argparse` option `--main_path`, type `str`,
  not marked required, hence `None` when omitted);
* opens `integrated.rs` in mode `"w"` and writes four prelude lines
  `use std::io::*;`, `use std::collections::*;`, `use std::cmp::*;`, `use std::ops::*;`;
* for each path: if `"/bin/" in path`, `continue` (the check precedes the `open`);
  otherwise it reads the file's lines (`readlines`, terminators kept), truncates the
  list strictly before the first line equal to `"#[cfg(test)]\n"` when present, and
  writes every remaining line containing none of the substrings
  `"use "`, `"mod "`, `"///"`.

Modelling choices:
* A Python line list is a `List String`; the output file's content is the
  concatenation of the strings in the produced `List String`.
* The filesystem is a record `FS`: `files` is the list of regular files that
  `glob.glob("src/**", recursive=True)` enumerates plus any other files, in
  enumeration order; `contents p` is the `readlines` result for `p`; `readOk p`
  says whether opening/reading/decoding `p` succeeds.  `glob.glob` on a pattern
  whose root does not exist raises nothing and simply matches nothing, so a
  missing `src` directory is the state in which no file path starts with `src/`.
* Failures are explicit: `Err.ioError` for an `OSError`/`UnicodeDecodeError` on
  `open`/`readlines`, `Err.typeError` for the `TypeError` raised by
  `"/bin/" in None` when `--main_path` was omitted.  A run returns the lines
  written so far paired with `none` on success or `some e` on abort, so partial
  output on abort is observable.
-/

namespace IntegrateCodes

/-- Python's substring test `word in line`: `word` occurs contiguously in `line`. -/
def containsSubstr (line word : String) : Bool :=
  decide (word.data <:+: line.data)

/-- `use_libs` from the script. -/
def use_libs : List String :=
  ["std::io::*", "std::collections::*", "std::cmp::*", "std::ops::*"]

/-- `blacklist` from the script. -/
def blacklist : List String := ["use ", "mod ", "///"]

/-- `test_flag` from the script: the full marker line, trailing newline included. -/
def test_flag : String := "#[cfg(test)]\n"

/-- The four prelude lines the script writes first: `f"use {lib};\n"` over `use_libs`. -/
def preludeLines : List String :=
  use_libs.map (fun lib => "use " ++ lib ++ ";\n")

/-- `all([word not in line for word in blacklist])`: the line survives the filter. -/
def keepLine (line : String) : Bool :=
  blacklist.all (fun word => !(containsSubstr line word))

/-- `if test_flag in lines: lines = lines[:lines.index(test_flag)]`. -/
def truncateAtMarker (lines : List String) : List String :=
  if lines.contains test_flag then lines.take (lines.indexOf test_flag) else lines

/-- The lines one file contributes: truncate at the marker, then filter. -/
def fileSegment (lines : List String) : List String :=
  (truncateAtMarker lines).filter keepLine

/-- A filesystem state: regular files in enumeration order, their line contents,
and whether reading each path succeeds. -/
structure FS where
  files : List String
  contents : String → List String
  readOk : String → Bool

/-- The scan-root path prefix fixed by the pattern `src/**`. -/
def srcRoot : String := "src/"

/-- The path segment that causes a file to be skipped. -/
def binSeg : String := "/bin/"

/-- `[p for p in glob.glob("src/**", recursive=True) if os.path.isfile(p)]`:
the regular files whose path starts with `src/`, in enumeration order.
When the `src` directory does not exist this list is empty (glob matches
nothing; it raises no error). -/
def scanSrc (fs : FS) : List String :=
  fs.files.filter (fun p => srcRoot.data.isPrefixOf p.data)

/-- A tiny sanity check that the model's substring test matches Python `in`. -/
theorem containsSubstr_example : containsSubstr "use std::fmt;" "use " = true := by
  decide

/-- How a run can abort. -/
inductive Err where
  | typeError : Err
  | ioError : Err
deriving DecidableEq

/-- `paths` after `paths.append(args.main_path)`: scanned files first, then the
`--main_path` value, which is `none` when the option was omitted. -/
def pathsOf (fs : FS) (mainPath : Option String) : List (Option String) :=
  (scanSrc fs).map some ++ [mainPath]

/-- The per-file loop.  `out` is everything written so far.  A `none` path makes
`"/bin/" in path` raise `TypeError`; a path containing `/bin/` is skipped before
any open; otherwise the file is opened (aborting with `ioError` on failure) and
its segment is appended. -/
def runPaths (fs : FS) : List (Option String) → List String → List String × Option Err
  | [], out => (out, none)
  | none :: _, out => (out, some Err.typeError)
  | some path :: rest, out =>
    if containsSubstr path binSeg then
      runPaths fs rest out
    else if fs.readOk path then
      runPaths fs rest (out ++ fileSegment (fs.contents path))
    else
      (out, some Err.ioError)

/-- The whole run: write the prelude, then process every path in order.
The first component is the content of `integrated.rs` (as a list of written
lines; the file is truncated on open, so this is its entire content), the
second is `none` iff the run completed successfully. -/
def runTool (fs : FS) (mainPath : Option String) : List String × Option Err :=
  runPaths fs (pathsOf fs mainPath) preludeLines

/-- The contributing file set of a successful run with entry point `m`:
scanned files in discovery order, then `m`, minus paths containing `/bin/`. -/
def contributing (fs : FS) (m : String) : List String :=
  (scanSrc fs ++ [m]).filter (fun p => !containsSubstr p binSeg)

/-- The `argparse` surface: a single option `--main_path` taking one string
value, not marked `required`, so parsing an argument list without it succeeds
with value `None`; a later occurrence overrides an earlier one; a dangling flag
or an unrecognized token is an error. -/
def parseArgs : List String → Except String (Option String)
  | [] => Except.ok none
  | ["--main_path"] => Except.error "argument --main_path: expected one argument"
  | "--main_path" :: v :: rest =>
    match parseArgs rest with
    | Except.ok r => Except.ok (some (r.getD v))
    | Except.error e => Except.error e
  | a :: _ => Except.error ("unrecognized arguments: " ++ a)

/-! ### Helper lemmas -/

/-- Processing a list of readable, `some`-wrapped paths succeeds and appends, in
order, the segment of every path not containing `/bin/`. -/
theorem runPaths_map_some_ok (fs : FS) (ps : List String) :
    ∀ out : List String,
      (∀ p ∈ ps, containsSubstr p binSeg = false → fs.readOk p = true) →
      runPaths fs (ps.map some) out =
        (out ++ (ps.filter (fun p => !containsSubstr p binSeg)).flatMap
            (fun p => fileSegment (fs.contents p)), none) := by
  induction ps with
  | nil => intro out _; simp [runPaths]
  | cons p ps ih =>
    intro out h
    cases hb : containsSubstr p binSeg with
    | true =>
      rw [List.map_cons]
      simp only [runPaths, hb, if_true]
      rw [ih out (fun q hq => h q (List.mem_cons_of_mem _ hq))]
      simp [List.filter_cons, hb]
    | false =>
      have hr : fs.readOk p = true := h p (List.mem_cons_self _ _) hb
      rw [List.map_cons]
      simp only [runPaths, hb, hr, Bool.false_eq_true, if_false, if_true]
      rw [ih _ (fun q hq => h q (List.mem_cons_of_mem _ hq))]
      simp [List.filter_cons, hb]

/-- Everything already written stays a prefix of the final output, whatever
happens afterwards. -/
theorem runPaths_out_isPrefix (fs : FS) (ps : List (Option String)) :
    ∀ out : List String, out <+: (runPaths fs ps out).1 := by
  induction ps with
  | nil => intro out; simp [runPaths]
  | cons p ps ih =>
    intro out
    cases p with
    | none => simp [runPaths]
    | some path =>
      cases hb : containsSubstr path binSeg with
      | true => simpa [runPaths, hb] using ih out
      | false =>
        cases hr : fs.readOk path with
        | true =>
          have h2 := ih (out ++ fileSegment (fs.contents path))
          simp only [runPaths, hb, hr, Bool.false_eq_true, if_false, if_true]
          exact (List.prefix_append _ _).trans h2
        | false => simp [runPaths, hb, hr]

/-! ### Claims -/

/-- Claim C1: for every contributing file (scanned files plus the entry point,
paths containing `/bin/` excluded) the emitted segment is exactly the lines
strictly before the first test-marker occurrence that contain none of the
excluded substrings, in original order, and segments appear in file-set order:
scanned files in discovery order, then the entry point last. -/
theorem run_output_characterization (fs : FS) (m : String)
    (hread : ∀ p ∈ contributing fs m, fs.readOk p = true) :
    runTool fs (some m) =
      (preludeLines ++
        (contributing fs m).flatMap (fun p => fileSegment (fs.contents p)), none) := by
  have h : ∀ p ∈ scanSrc fs ++ [m], containsSubstr p binSeg = false → fs.readOk p = true := by
    intro p hp hb
    exact hread p (List.mem_filter.mpr ⟨hp, by simp [hb]⟩)
  have hmap : (scanSrc fs).map some ++ [some m] = (scanSrc fs ++ [m]).map some := by simp
  show runPaths fs ((scanSrc fs).map some ++ [some m]) preludeLines = _
  rw [hmap, runPaths_map_some_ok fs (scanSrc fs ++ [m]) preludeLines h]
  rfl

/-- A filesystem with one scanned file and a separate entry-point file. -/
def fsC1 : FS :=
  ⟨["src/a.rs"],
   fun p =>
     if p == "src/a.rs" then ["let a = 1;\n"]
     else if p == "main.rs" then ["let b = 2;\n"]
     else [],
   fun p => p == "src/a.rs" || p == "main.rs"⟩

theorem run_output_characterization_witness :
    runTool fsC1 (some "main.rs") =
      (preludeLines ++
        (contributing fsC1 "main.rs").flatMap (fun p => fileSegment (fsC1.contents p)), none) :=
  run_output_characterization fsC1 "main.rs" (by decide)

/-- Claim C2: the output always starts with the four fixed prelude lines,
written before any file content (the output is truncated at open, so they are
its first four lines even when a later step aborts the run). -/
theorem prelude_first (fs : FS) (mp : Option String) :
    preludeLines <+: (runTool fs mp).1 ∧ (runTool fs mp).1.take 4 = preludeLines := by
  have h := runPaths_out_isPrefix fs (pathsOf fs mp) preludeLines
  refine ⟨h, ?_⟩
  obtain ⟨t, ht⟩ := h
  show (runPaths fs (pathsOf fs mp) preludeLines).1.take 4 = preludeLines
  rw [← ht]
  have h4 : (4 : Nat) = preludeLines.length := rfl
  rw [h4, List.take_left]

/-- Claim C3: in a file containing a line equal to the test marker, no line
position at or after the marker's first occurrence is emitted — the segment is
the exclusion filter applied to the already-truncated prefix, and is a sublist
of the lines strictly before the marker. -/
theorem marker_truncation_before_filter (lines : List String)
    (h : lines.contains test_flag = true) :
    fileSegment lines = (lines.take (lines.indexOf test_flag)).filter keepLine ∧
      (fileSegment lines).Sublist (lines.take (lines.indexOf test_flag)) := by
  have ht : truncateAtMarker lines = lines.take (lines.indexOf test_flag) := by
    unfold truncateAtMarker
    rw [if_pos h]
  exact ⟨by rw [fileSegment, ht], by rw [fileSegment, ht]; exact List.filter_sublist _⟩

theorem marker_truncation_before_filter_witness :
    fileSegment ["let a = 1;\n", "#[cfg(test)]\n", "let b = 2;\n"] =
        (["let a = 1;\n", "#[cfg(test)]\n", "let b = 2;\n"].take
          (["let a = 1;\n", "#[cfg(test)]\n", "let b = 2;\n"].indexOf test_flag)).filter keepLine ∧
      (fileSegment ["let a = 1;\n", "#[cfg(test)]\n", "let b = 2;\n"]).Sublist
        (["let a = 1;\n", "#[cfg(test)]\n", "let b = 2;\n"].take
          (["let a = 1;\n", "#[cfg(test)]\n", "let b = 2;\n"].indexOf test_flag)) :=
  marker_truncation_before_filter ["let a = 1;\n", "#[cfg(test)]\n", "let b = 2;\n"] (by decide)

/-- Claim C4: a path containing the segment `/bin/` — discovered or entry
point, at any position in the file set — contributes zero lines: processing the
file set with it is the same as processing the file set without it. -/
theorem bin_path_contributes_nothing (fs : FS) (l₁ l₂ : List (Option String))
    (p : String) (h : containsSubstr p binSeg = true) :
    ∀ out : List String, runPaths fs (l₁ ++ some p :: l₂) out = runPaths fs (l₁ ++ l₂) out := by
  induction l₁ with
  | nil => intro out; simp [runPaths, h]
  | cons q l₁ ih =>
    intro out
    cases q with
    | none => simp [runPaths]
    | some path =>
      cases hb : containsSubstr path binSeg with
      | true => simpa [runPaths, hb] using ih out
      | false =>
        cases hr : fs.readOk path with
        | true => simpa [runPaths, hb, hr] using ih _
        | false => simp [runPaths, hb, hr]

theorem bin_path_contributes_nothing_witness :
    runPaths fsC1 ([some "src/a.rs"] ++ some "src/bin/x.rs" :: [some "main.rs"]) preludeLines =
      runPaths fsC1 ([some "src/a.rs"] ++ [some "main.rs"]) preludeLines :=
  bin_path_contributes_nothing fsC1 [some "src/a.rs"] [some "main.rs"] "src/bin/x.rs"
    (by decide) preludeLines

/-- A filesystem in which the scan root `src` does not exist: `glob` matches
nothing, so no enumerated file path starts with `src/`. -/
def fsC5 : FS :=
  ⟨["main.rs"], fun p => if p == "main.rs" then ["let a = 0;\n"] else [],
   fun p => p == "main.rs"⟩

/-- Claim C5 counterexample: with the scan root missing, `glob.glob` simply
matches nothing, and the run completes successfully — it does not fail with a
file-not-found error. -/
theorem missing_src_run_succeeds :
    scanSrc fsC5 = [] ∧
    runTool fsC5 (some "main.rs") = (preludeLines ++ ["let a = 0;\n"], none) := by
  decide

/-- Claim C5 amended: if the scan root does not exist, the scan yields no
candidate files and the run proceeds with only the entry point, completing
successfully whenever the entry point is readable and not `/bin/`-excluded. -/
theorem missing_src_amended (fs : FS) (m : String)
    (hscan : scanSrc fs = []) (hbin : containsSubstr m binSeg = false)
    (hread : fs.readOk m = true) :
    runTool fs (some m) = (preludeLines ++ fileSegment (fs.contents m), none) := by
  show runPaths fs ((scanSrc fs).map some ++ [some m]) preludeLines = _
  rw [hscan]
  simp [runPaths, hbin, hread]

theorem missing_src_amended_witness :
    runTool fsC5 (some "main.rs") =
      (preludeLines ++ fileSegment (fsC5.contents "main.rs"), none) :=
  missing_src_amended fsC5 "main.rs" (by decide) (by decide) (by decide)

/-- A filesystem whose only scanned file lies under `src/bin/` and cannot be
read; the entry point is readable. -/
def fsC6 : FS :=
  ⟨["src/bin/a.rs"], fun p => if p == "main.rs" then ["let m = 0;\n"] else [],
   fun p => p == "main.rs"⟩

/-- Claim C6 counterexample: an excluded `/bin/` file whose read would fail
does not abort the run — the run still completes successfully, because the
skip check precedes the `open`. -/
theorem excluded_unreadable_run_succeeds :
    fsC6.readOk "src/bin/a.rs" = false ∧
    runTool fsC6 (some "main.rs") = (preludeLines ++ ["let m = 0;\n"], none) := by
  decide

/-- Claim C6 amended: a path containing `/bin/` is skipped before being opened,
so it is never read and its readability — even `readOk = false` — cannot
affect or abort the run. -/
theorem excluded_path_never_opened (fs : FS) (p : String) (rest : List (Option String))
    (out : List String) (h : containsSubstr p binSeg = true)
    (_hunread : fs.readOk p = false) :
    runPaths fs (some p :: rest) out = runPaths fs rest out := by
  simp [runPaths, h]

theorem excluded_path_never_opened_witness :
    runPaths fsC6 (some "src/bin/a.rs" :: [some "main.rs"]) preludeLines =
      runPaths fsC6 [some "main.rs"] preludeLines :=
  excluded_path_never_opened fsC6 "src/bin/a.rs" [some "main.rs"] preludeLines
    (by decide) (by decide)

/-- Substring containment is transitive: if `w` occurs in `line` and `u`
occurs in `w`, then `u` occurs in `line`. -/
theorem containsSubstr_trans (line w u : String)
    (hw : containsSubstr line w = true) (hu : containsSubstr w u = true) :
    containsSubstr line u = true := by
  rw [containsSubstr, decide_eq_true_iff] at hw hu ⊢
  exact hu.trans hw

/-- Claim C7 counterexample: a file containing the line `use std::fmt;` is not
fully dropped — only that line is; the file's other surviving lines still
appear in its segment. -/
theorem use_line_file_not_fully_dropped :
    fileSegment ["use std::fmt;\n", "let k = 3;\n"] = ["let k = 3;\n"] ∧
    fileSegment ["use std::fmt;\n", "let k = 3;\n"] ≠ [] := by
  decide

/-- Claim C7 amended: the exclusion filter drops lines, not files: any line
containing `use std::fmt;` (it contains the blacklisted substring `use `) and
any line containing `mod tests;` (it contains `mod `) is dropped, so no
emitted line contains either string; the file's other lines are unaffected. -/
theorem blacklisted_lines_dropped (ls : List String) (line : String)
    (h : line ∈ fileSegment ls) :
    containsSubstr line "use std::fmt;" = false ∧
      containsSubstr line "mod tests;" = false := by
  have hk : keepLine line = true := (List.mem_filter.mp h).2
  rw [keepLine, List.all_eq_true] at hk
  have huse : containsSubstr line "use " = false := by
    have h2 := hk "use " (by decide)
    simpa using h2
  have hmod : containsSubstr line "mod " = false := by
    have h2 := hk "mod " (by decide)
    simpa using h2
  constructor
  · cases hc : containsSubstr line "use std::fmt;" with
    | false => rfl
    | true =>
      have h3 := containsSubstr_trans line "use std::fmt;" "use " hc (by decide)
      rw [huse] at h3
      exact absurd h3 Bool.false_ne_true
  · cases hc : containsSubstr line "mod tests;" with
    | false => rfl
    | true =>
      have h3 := containsSubstr_trans line "mod tests;" "mod " hc (by decide)
      rw [hmod] at h3
      exact absurd h3 Bool.false_ne_true

theorem blacklisted_lines_dropped_witness :
    containsSubstr "let k = 3;\n" "use std::fmt;" = false ∧
      containsSubstr "let k = 3;\n" "mod tests;" = false :=
  blacklisted_lines_dropped ["let k = 3;\n"] "let k = 3;\n" (by decide)

/-- A filesystem with a single readable scanned file. -/
def fsC8 : FS :=
  ⟨["src/a.rs"], fun p => if p == "src/a.rs" then ["let a = 1;\n"] else [],
   fun p => p == "src/a.rs"⟩

/-- Claim C8 counterexample: `--main_path` is not marked required, so an
invocation omitting it is accepted by the parser (value `None`); bundling then
runs — the prelude and the scanned file are written — before the run aborts
with a `TypeError` at the `None` path. It is not rejected up front. -/
theorem omitted_main_path_not_rejected :
    parseArgs [] = Except.ok none ∧
    runTool fsC8 none = (preludeLines ++ ["let a = 1;\n"], some Err.typeError) :=
  ⟨rfl, by decide⟩

/-- Claim C8 amended: the entry-point option is optional at the command
surface; omitting it is accepted by the parser, but the run still never
completes successfully — it aborts (with a `TypeError` at the appended `None`
path, or earlier on a read failure). -/
theorem omitted_main_path_never_succeeds (fs : FS) :
    ((runTool fs none).2).isSome = true := by
  show ((runPaths fs ((scanSrc fs).map some ++ [none]) preludeLines).2).isSome = true
  have key : ∀ (l : List String) (out : List String),
      ((runPaths fs (l.map some ++ [none]) out).2).isSome = true := by
    intro l
    induction l with
    | nil => intro out; simp [runPaths]
    | cons p ps ih =>
      intro out
      cases hb : containsSubstr p binSeg with
      | true => simpa [runPaths, hb] using ih out
      | false =>
        cases hr : fs.readOk p with
        | true => simpa [runPaths, hb, hr] using ih _
        | false => simp [runPaths, hb, hr]
  exact key (scanSrc fs) preludeLines

/-- Claim C9: the run is a deterministic function of the filesystem state —
two runs over the same discovery order, the same contents and the same
readability produce identical output (hence byte-identical output files). -/
theorem run_deterministic (fs₁ fs₂ : FS) (mp : Option String)
    (hf : fs₁.files = fs₂.files)
    (hc : ∀ p, fs₁.contents p = fs₂.contents p)
    (hr : ∀ p, fs₁.readOk p = fs₂.readOk p) :
    runTool fs₁ mp = runTool fs₂ mp := by
  have heq : fs₁ = fs₂ := by
    cases fs₁ with
    | mk f c r =>
      cases fs₂ with
      | mk f' c' r' =>
        simp only [FS.mk.injEq]
        exact ⟨hf, funext hc, funext hr⟩
  rw [heq]

/-- An arbitrary fixed filesystem state used to witness determinism. -/
def fsC9 : FS := ⟨["src/a.rs"], fun _ => ["let z = 9;\n"], fun _ => true⟩

theorem run_deterministic_witness :
    runTool fsC9 (some "main.rs") = runTool fsC9 (some "main.rs") :=
  run_deterministic fsC9 fsC9 (some "main.rs") rfl (fun _ => rfl) (fun _ => rfl)

/-- Claim C10: the marker comparison is exact string equality against the
newline-terminated `test_flag`; a file with no line equal to it — such as one
whose final line is the marker text without its trailing newline — is not
truncated, and every line (that final line included) proceeds to the
exclusion filter. -/
theorem no_marker_no_truncation (ls : List String)
    (h : ls.contains test_flag = false) :
    fileSegment ls = ls.filter keepLine := by
  have h' : ¬ (ls.contains test_flag = true) := by
    intro hc
    rw [h] at hc
    exact Bool.false_ne_true hc
  rw [fileSegment, truncateAtMarker, if_neg h']

theorem no_marker_no_truncation_witness :
    ["let a = 1;\n", "#[cfg(test)]"].contains test_flag = false ∧
      fileSegment ["let a = 1;\n", "#[cfg(test)]"] =
        ["let a = 1;\n", "#[cfg(test)]"].filter keepLine ∧
      ["let a = 1;\n", "#[cfg(test)]"].filter keepLine =
        ["let a = 1;\n", "#[cfg(test)]"] :=
  ⟨by decide, no_marker_no_truncation ["let a = 1;\n", "#[cfg(test)]"] (by decide), by decide⟩

end IntegrateCodes
